import Mathlib

/-!
Shallow embedding of the mioco coroutine-runtime core (src/lib.rs).

The embedding translates the scheduler/reactor bookkeeping of the source:
the `RW` mode enum, `LastEvent`, the coroutine `State` machine, the
`EventSourceShared` shell (token, index, kind, `peer_hup`, `registered`),
the coroutine record with its `blocked_on_mask` / `registered_mask` u32
bitmasks (modelled as `Nat` with `testBit`; all indices stay below 32, the
limit the source imposes), and the shared server state (slab of occupied
tokens, `coroutines_no`).

Reactor interaction (`mio::EventLoop` calls `register_opt`, `reregister`,
`deregister`) is modelled as a trace of `ReactorOp` values emitted by each
operation.  The stackful-coroutine primitive, the user objects boxed inside
`Source`, and the actual event loop are external collaborators; functions
here model the runtime's state transitions up to (and after) the points
where control is handed to them, exactly as the corresponding Rust
functions mutate the state.  Rust `panic!` / `expect` paths are modelled
with `Option`, returning `none` where the source panics.
-/

/-- Read/Write/Both/Notify mode, `enum RW` of the source. -/
inductive RW
  | Read
  | Write
  | Both
  | Notify
deriving DecidableEq, Repr

/-- `RW::has_read`: true for `Read` and `Both`. -/
def RW.has_read : RW → Bool
  | .Read | .Both => true
  | .Write | .Notify => false

/-- `RW::has_write`: true for `Write` and `Both`. -/
def RW.has_write : RW → Bool
  | .Write | .Both => true
  | .Read | .Notify => false

/-- `struct EventSourceIndex(usize)`: position of a source in its owning
coroutine's source list. -/
structure EventSourceIndex where
  val : Nat
deriving DecidableEq, Repr

/-- `struct LastEvent`: last event that resumed the coroutine. -/
structure LastEvent where
  index : EventSourceIndex
  rw : RW
deriving DecidableEq, Repr

/-- `enum State`: state of a mioco coroutine. -/
inductive State
  | BlockedOn (rw : RW)
  | Running
  | Finished
deriving DecidableEq, Repr

/-- `enum Source`: the two source kinds.  The boxed user object
(`Box<Evented>` / `Box<Notified>`) is an external collaborator and carries
no runtime bookkeeping, so only the tag is kept. -/
inductive Source
  | Evented
  | Notified
deriving DecidableEq, Repr

/-- `struct EventSourceShared`: runtime shell around one user object.
The `coroutine` back-reference is represented structurally: every function
that needs both the source and its owner takes the owning coroutine
explicitly. -/
structure EventSourceShared where
  token : Nat
  index : Nat
  io : Source
  peer_hup : Bool
  registered : Bool
deriving DecidableEq, Repr

/-- Default source used only as the out-of-range default of `List.getD`. -/
def dummySrc : EventSourceShared :=
  { token := 0, index := 0, io := Source.Evented, peer_hup := false, registered := false }

/-- `struct Coroutine`: per-coroutine record.  `handle` (the execution
handle), `server_shared` (back-reference) and `children_to_start` are
external or not needed by the properties below; the weak references of the
source list `io` are inlined as the sources themselves. -/
structure Coroutine where
  state : State
  last_event : LastEvent
  io : List EventSourceShared
  blocked_on_mask : Nat
  registered_mask : Nat
deriving DecidableEq, Repr

/-- `struct ServerShared`: slab of occupied tokens plus the live-coroutine
count (`channel` is the reactor's sender, external). -/
structure ServerShared where
  sources : Finset Nat
  coroutines_no : Nat
deriving DecidableEq

/-- `mio::EventSet` restricted to the bits the source manipulates. -/
structure EventSet where
  readable : Bool
  writable : Bool
  hup : Bool
deriving DecidableEq, Repr

/-- `mio::PollOpt` values used by the source: `edge()` for the first
arming, `edge() | oneshot()` for every rearming. -/
inductive PollOpt
  | edge
  | edgeOneshot
deriving DecidableEq, Repr

/-- One reactor call issued by the runtime. -/
inductive ReactorOp
  | register (token : Nat) (interest : EventSet) (opt : PollOpt)
  | reregister (token : Nat) (interest : EventSet) (opt : PollOpt)
  | deregister (token : Nat)
deriving DecidableEq, Repr

/-- Clear bit `i`: `mask &= !(1 << i)` of the source, on `Nat`. -/
def clearBit (m i : Nat) : Nat :=
  if m.testBit i then m - (1 <<< i) else m

/-- `Coroutine::new`: fresh coroutine record.  `last_event` starts as
index 0 / `RW::Read` even though no event happened yet. -/
def Coroutine.new : Coroutine :=
  { state := State.Running
    last_event := { rw := RW.Read, index := EventSourceIndex.mk 0 }
    io := []
    blocked_on_mask := 0
    registered_mask := 0 }

/-- Interest set built by `EventSourceShared::reregister`: start from
`none`, add `hup` (and `readable` when `rw.has_read()`) unless `peer_hup`,
add `writable` when `rw.has_write()`. -/
def EventSourceShared.interest (s : EventSourceShared) (rw : RW) : EventSet :=
  let i : EventSet := { readable := false, writable := false, hup := false }
  let i :=
    if !s.peer_hup then
      let i := { i with hup := true }
      if rw.has_read then { i with readable := true } else i
    else i
  if rw.has_write then { i with writable := true } else i

/-- `EventSourceShared::reregister`: returns early for `Notified`;
otherwise first arming uses `register_opt` with `edge()` and sets
`registered`, later armings use `reregister` with `edge() | oneshot()`. -/
def EventSourceShared.reregister (s : EventSourceShared) (rw : RW) :
    EventSourceShared × List ReactorOp :=
  match s.io with
  | Source.Notified => (s, [])
  | Source.Evented =>
    let interest := s.interest rw
    if !s.registered then
      ({ s with registered := true }, [ReactorOp.register s.token interest PollOpt.edge])
    else
      (s, [ReactorOp.reregister s.token interest PollOpt.edgeOneshot])

/-- `EventSourceShared::unreregister`: returns early for `Notified`;
otherwise rearms with the empty interest set (the `registered` flag is not
touched: the function takes `&self`). -/
def EventSourceShared.unreregister (s : EventSourceShared) : List ReactorOp :=
  match s.io with
  | Source.Notified => []
  | Source.Evented =>
    [ReactorOp.reregister s.token
      { readable := false, writable := false, hup := false } PollOpt.edgeOneshot]

/-- `EventSourceShared::deregister`: returns early for `Notified`;
otherwise, when `registered`, deregisters from the reactor and clears the
flag. -/
def EventSourceShared.deregister (s : EventSourceShared) :
    EventSourceShared × List ReactorOp :=
  match s.io with
  | Source.Notified => (s, [])
  | Source.Evented =>
    if s.registered then
      ({ s with registered := false }, [ReactorOp.deregister s.token])
    else
      (s, [])

/-- One iteration of the loop body of `Coroutine::reregister_blocked_on`
at position `i`. -/
def armOne (rw : RW) (blocked reg : Nat) (i : Nat) (s : EventSourceShared) :
    EventSourceShared × List ReactorOp :=
  if blocked.testBit i then s.reregister rw
  else if reg.testBit i then (s, s.unreregister)
  else (s, [])

/-- The loop `for i in 0..self.io.len()` of
`Coroutine::reregister_blocked_on`, with `i` starting at the given
offset. -/
def armPass (rw : RW) (blocked reg : Nat) : Nat → List EventSourceShared →
    List EventSourceShared × List ReactorOp
  | _, [] => ([], [])
  | i, s :: rest =>
    let p := armOne rw blocked reg i s
    let q := armPass rw blocked reg (i + 1) rest
    (p.1 :: q.1, p.2 ++ q.2)

/-- `Coroutine::reregister_blocked_on`: extracts the blocking mode from
`state` (the source panics on any other state, modelled as `none`), runs
the arming loop, then sets `registered_mask = blocked_on_mask` and
`blocked_on_mask = 0`. -/
def Coroutine.reregister_blocked_on (co : Coroutine) :
    Option (Coroutine × List ReactorOp) :=
  match co.state with
  | State.BlockedOn rw =>
    let p := armPass rw co.blocked_on_mask co.registered_mask 0 co.io
    some ({ co with io := p.1, registered_mask := co.blocked_on_mask, blocked_on_mask := 0 },
      p.2)
  | _ => none

/-- `Slab::remove` on the token slab: panics (`none`) when the slot is
empty, otherwise removes the token. -/
def slabRemove (slab : Finset Nat) (t : Nat) : Option (Finset Nat) :=
  if t ∈ slab then some (slab.erase t) else none

/-- The loop of `Coroutine::deregister_all`: per owned source, call
`deregister` and remove its token from the slab (`expect` on an empty
slot panics, modelled as `none`). -/
def deregisterAllAux : List EventSourceShared → Finset Nat →
    Option (List EventSourceShared × Finset Nat × List ReactorOp)
  | [], slab => some ([], slab, [])
  | s :: rest, slab =>
    let p := s.deregister
    match slabRemove slab s.token with
    | none => none
    | some slab1 =>
      match deregisterAllAux rest slab1 with
      | none => none
      | some (rest1, slab2, ops) => some (p.1 :: rest1, slab2, p.2 ++ ops)

/-- `Coroutine::reregister`: when `Finished`, deregister everything,
decrement `coroutines_no` and shut the event loop down when it reaches 0
(the shutdown call is the `Bool` of the result); otherwise run the arming
pass. -/
def Coroutine.reregister (co : Coroutine) (shared : ServerShared) :
    Option (Coroutine × ServerShared × List ReactorOp × Bool) :=
  if co.state = State.Finished then
    match deregisterAllAux co.io shared.sources with
    | none => none
    | some (io1, slab1, ops) =>
      let n := shared.coroutines_no - 1
      some ({ co with io := io1 }, { sources := slab1, coroutines_no := n }, ops, n == 0)
  else
    match co.reregister_blocked_on with
    | none => none
    | some (co1, ops) => some (co1, shared, ops, false)

/-- Tail of the coroutine body closure in `spawn_impl`: after the user
body returns, set `state = Finished` and `blocked_on_mask = 0`. -/
def coroutineFinish (co : Coroutine) : Coroutine :=
  { co with state := State.Finished, blocked_on_mask := 0 }

/-- `EventSource::resume`, restricted to the state mutations performed
before `handle.resume()` hands control to the coroutine: clear this
source's bit from the owner's `blocked_on_mask`, set `state = Running`,
and record `last_event` unless the event is `Notify`. -/
def EventSource.resumeAtMoment (co : Coroutine) (index : Nat) (event : RW) : Coroutine :=
  let co := { co with blocked_on_mask := clearBit co.blocked_on_mask index }
  let co := { co with state := State.Running }
  if event ≠ RW.Notify then
    { co with last_event := { rw := event, index := EventSourceIndex.mk index } }
  else co

/-- `Server::notify` followed by `EventSource::notify`, as far as the
runtime state goes: `lookup` is the slab lookup of the token (kind and
index of the found source).  An absent token or an `Evented` source is
ignored; for a `Notified` source the user callback runs (external) and
the owner is resumed with `RW::Notify`.  The `Bool` records whether the
coroutine's handle was resumed. -/
def notifyDispatch (lookup : Option (Source × Nat)) (co : Coroutine) :
    Coroutine × Bool :=
  match lookup with
  | none => (co, false)
  | some (Source.Evented, _) => (co, false)
  | some (Source.Notified, index) =>
    (EventSource.resumeAtMoment co index RW.Notify, true)

/-- Event-mode computation of `EventSource::ready`:
`match (readable | hup, writable)`; the `(false, false)` arm panics,
modelled as `none`. -/
def readyEvent (events : EventSet) : Option RW :=
  match (events.readable || events.hup), events.writable with
  | true, true => some RW.Both
  | true, false => some RW.Read
  | false, true => some RW.Write
  | false, false => none

/-- `select_impl_set_mask_rc_handles`: or together `1 << index` of every
handle, starting from `0`. -/
def MiocoHandle.select_mask (io : List EventSourceShared) : Nat :=
  io.foldl (fun m s => m ||| (1 <<< s.index)) 0

/-- `MiocoHandle::select` / `select_read` / `select_write` up to the
suspension point: set `blocked_on_mask` from all owned handles, set
`state = BlockedOn rw`, then block. -/
def selectBlockState (co : Coroutine) (rw : RW) : Coroutine :=
  { co with blocked_on_mask := MiocoHandle.select_mask co.io,
            state := State.BlockedOn rw }

/-- `TypedEventSource::block_on`: set `state = BlockedOn rw` and
`blocked_on_mask = 1 << index`, then suspend. -/
def blockOn (co : Coroutine) (index : Nat) (rw : RW) : Coroutine :=
  { co with state := State.BlockedOn rw, blocked_on_mask := 1 <<< index }

/-- Result of one non-blocking attempt of the wrapped user object
(`try_read` returns `Ok(Some(n))`, `Ok(None)` or `Err(e)`; errors are
identified by a numeric code). -/
inductive TryRes
  | ready (n : Nat)
  | notReady
  | ioErr (e : Nat)
deriving DecidableEq, Repr

/-- The `loop` of `TypedEventSource::read` (`impl Read for
TypedEventSource`), with the successive `try_read` outcomes supplied as an
oracle list (one entry per loop iteration).  Returns the list of blocking
modes passed to `block_on` (one per `Ok(None)` iteration) and the final
result; `none` when the oracle runs out while the loop is still going. -/
def readLoop : List TryRes → List RW × Option (Except Nat Nat)
  | [] => ([], none)
  | TryRes.ready n :: _ => ([], some (Except.ok n))
  | TryRes.ioErr e :: _ => ([], some (Except.error e))
  | TryRes.notReady :: rest =>
    let p := readLoop rest
    (RW.Read :: p.1, p.2)

/-! Helper lemmas about the arming pass and the teardown loop. -/

theorem armPass_fst_length (rw : RW) (b r : Nat) :
    ∀ (n : Nat) (l : List EventSourceShared), (armPass rw b r n l).1.length = l.length
  | _, [] => rfl
  | n, _ :: rest => by
    simp [armPass, armPass_fst_length rw b r (n + 1) rest]

theorem armPass_fst_getD (rw : RW) (b r : Nat) :
    ∀ (n i : Nat) (l : List EventSourceShared), i < l.length →
      (armPass rw b r n l).1.getD i dummySrc =
        (armOne rw b r (n + i) (l.getD i dummySrc)).1
  | n, 0, s :: _, _ => by simp [armPass]
  | n, i + 1, s :: rest, h => by
    have ih := armPass_fst_getD rw b r (n + 1) i rest (by simpa using h)
    simpa [armPass, Nat.add_assoc, Nat.add_comm 1 i] using ih

theorem armPass_snd_eq (rw : RW) (b r : Nat) :
    ∀ (n : Nat) (l : List EventSourceShared),
      (armPass rw b r n l).2 =
        ((List.range l.length).map
          (fun i => (armOne rw b r (n + i) (l.getD i dummySrc)).2)).flatten
  | _, [] => by simp [armPass]
  | n, s :: rest => by
    have ih := armPass_snd_eq rw b r (n + 1) rest
    have hmap :
        (List.range rest.length).map
            ((fun i => (armOne rw b r (n + i) ((s :: rest).getD i dummySrc)).2) ∘ Nat.succ) =
          (List.range rest.length).map
            (fun i => (armOne rw b r (n + 1 + i) (rest.getD i dummySrc)).2) := by
      refine List.map_congr_left ?_
      intro i _
      have hadd : n + (i + 1) = n + 1 + i := by omega
      simp [Function.comp, Nat.succ_eq_add_one, hadd]
    rw [List.length_cons, List.range_succ_eq_map, List.map_cons, List.map_map,
      List.flatten_cons, hmap, ← ih]
    simp [armPass]

theorem reregister_fst_registered (s : EventSourceShared) (rw : RW)
    (h : s.io = Source.Evented) : ((s.reregister rw).1).registered = true := by
  rcases s with ⟨t, i, k, ph, reg⟩
  cases k
  · cases reg <;> simp [EventSourceShared.reregister]
  · cases h

theorem reregister_fst_of_notified (s : EventSourceShared) (rw : RW)
    (h : s.io = Source.Notified) : (s.reregister rw).1 = s := by
  rcases s with ⟨t, i, k, ph, reg⟩
  cases k
  · cases h
  · rfl

theorem deregister_fst_io (s : EventSourceShared) : (s.deregister.1).io = s.io := by
  rcases s with ⟨t, i, k, ph, reg⟩
  cases k <;> cases reg <;> rfl

theorem deregister_fst_registered (s : EventSourceShared)
    (h : s.io = Source.Evented) : (s.deregister.1).registered = false := by
  rcases s with ⟨t, i, k, ph, reg⟩
  cases k
  · cases reg <;> simp [EventSourceShared.deregister]
  · cases h

theorem deregisterAllAux_spec :
    ∀ (l : List EventSourceShared) (slab : Finset Nat)
      (l1 : List EventSourceShared) (slab1 : Finset Nat) (ops : List ReactorOp),
      deregisterAllAux l slab = some (l1, slab1, ops) →
      l1 = l.map (fun s => s.deregister.1) ∧
      ops = (l.map (fun s => s.deregister.2)).flatten ∧
      ∀ t, t ∈ slab1 → t ∈ slab ∧ t ∉ l.map (fun s => s.token)
  | [], slab, l1, slab1, ops, h => by
    simp [deregisterAllAux] at h
    simp [h.1, h.2.1, ← h.2.2]
  | s :: rest, slab, l1, slab1, ops, h => by
    by_cases hmem : s.token ∈ slab
    · simp only [deregisterAllAux, slabRemove, if_pos hmem] at h
      cases hrec : deregisterAllAux rest (slab.erase s.token) with
      | none => rw [hrec] at h; cases h
      | some r =>
        obtain ⟨rest1, slab2, ops2⟩ := r
        rw [hrec] at h
        simp only [Option.some.injEq, Prod.mk.injEq] at h
        obtain ⟨h1, h2, h3⟩ := h
        obtain ⟨e1, e2, e3⟩ := deregisterAllAux_spec rest (slab.erase s.token)
          rest1 slab2 ops2 hrec
        subst h1 h2 h3
        refine ⟨by simp [e1], by simp [e2], ?_⟩
        intro t ht
        have hrest := e3 t ht
        have hne : t ≠ s.token := (Finset.mem_erase.mp hrest.1).1
        have hin : t ∈ slab := (Finset.mem_erase.mp hrest.1).2
        simp [hin, hne, hrest.2]
    · simp [deregisterAllAux, slabRemove, if_neg hmem] at h

theorem deregisterAllAux_total :
    ∀ (l : List EventSourceShared) (slab : Finset Nat),
      (l.map (fun s => s.token)).Nodup →
      (∀ s ∈ l, s.token ∈ slab) →
      ∃ r, deregisterAllAux l slab = some r
  | [], slab, _, _ => ⟨_, rfl⟩
  | s :: rest, slab, hnd, hmem => by
    have hs : s.token ∈ slab := hmem s (by simp)
    have hnd' : (rest.map (fun s => s.token)).Nodup := (List.nodup_cons.mp hnd).2
    have hout : s.token ∉ rest.map (fun s => s.token) := (List.nodup_cons.mp hnd).1
    have hmem' : ∀ u ∈ rest, u.token ∈ slab.erase s.token := by
      intro u hu
      refine Finset.mem_erase.mpr ⟨?_, hmem u (by simp [hu])⟩
      intro hequ
      exact hout (by simpa [hequ] using List.mem_map_of_mem (fun s => s.token) hu)
    obtain ⟨⟨rest1, slab2, ops2⟩, hrec⟩ :=
      deregisterAllAux_total rest (slab.erase s.token) hnd' hmem'
    exact ⟨(s.deregister.1 :: rest1, slab2, s.deregister.2 ++ ops2),
      by simp [deregisterAllAux, slabRemove, hs, hrec]⟩

/-! Claim C1. -/

/-- Concrete sources for the C1 counterexample. -/
def c1s0 : EventSourceShared :=
  { token := 0, index := 0, io := Source.Evented, peer_hup := false, registered := false }

def c1s1 : EventSourceShared :=
  { token := 1, index := 1, io := Source.Evented, peer_hup := false, registered := false }

/-- Coroutine blocked via `select` on two sources at once
(`blocked_on_mask = 0b11`). -/
def c1co : Coroutine :=
  selectBlockState { Coroutine.new with io := [c1s0, c1s1] } RW.Both

/-- C1 counterexample: resuming a coroutine that `select`ed over two
sources clears only the resumed source's bit, so at the moment of resume
`blocked_on_mask = 0b10 ≠ 0`, refuting the claim that every resume sees
`blocked_on == 0`. -/
theorem claim_C1_counterexample :
    ¬ ((EventSource.resumeAtMoment c1co 0 RW.Read).state = State.Running ∧
       (EventSource.resumeAtMoment c1co 0 RW.Read).blocked_on_mask = 0) := by
  decide

/-- C1 (amended): at the moment of every resume of a coroutine's handle by
the dispatcher, the coroutine's state equals `Running`, and its
`blocked_on` mask equals the pre-resume mask with exactly the resumed
source's bit cleared — which is 0 precisely when the coroutine was not
blocked on any other source. -/
theorem claim_C1_amended (co : Coroutine) (index : Nat) (event : RW) :
    (EventSource.resumeAtMoment co index event).state = State.Running ∧
    (EventSource.resumeAtMoment co index event).blocked_on_mask =
      clearBit co.blocked_on_mask index := by
  unfold EventSource.resumeAtMoment
  split <;> exact ⟨rfl, rfl⟩

/-! Claim C2. -/

/-- C2: when the arming pass arms an `Evented` source blocked on mode
`rw`, the interest set includes hangup iff `peer_hup` is unset, readable
iff `rw.has_read` and `peer_hup` is unset, and writable iff
`rw.has_write`; an unregistered source is armed via `register_opt` with
edge-triggered polling (setting `registered`), a registered one via
`reregister` with edge-triggered plus one-shot. -/
theorem claim_C2 (s : EventSourceShared) (rw : RW) (h : s.io = Source.Evented) :
    ((s.interest rw).hup = !s.peer_hup) ∧
    ((s.interest rw).readable = (rw.has_read && !s.peer_hup)) ∧
    ((s.interest rw).writable = rw.has_write) ∧
    (s.registered = false →
      s.reregister rw = ({ s with registered := true },
        [ReactorOp.register s.token (s.interest rw) PollOpt.edge])) ∧
    (s.registered = true →
      s.reregister rw = (s,
        [ReactorOp.reregister s.token (s.interest rw) PollOpt.edgeOneshot])) := by
  rcases s with ⟨t, i, k, ph, reg⟩
  cases k
  · refine ⟨?_, ?_, ?_, ?_, ?_⟩ <;>
      cases ph <;> cases reg <;> cases rw <;>
        simp [EventSourceShared.interest, EventSourceShared.reregister,
          RW.has_read, RW.has_write]
  · cases h

/-- Witness for C2 at a concrete unregistered source and mode `Both`. -/
def c2src : EventSourceShared :=
  { token := 4, index := 0, io := Source.Evented, peer_hup := false, registered := false }

theorem claim_C2_witness :
    ((c2src.interest RW.Both).hup = !c2src.peer_hup) ∧
    ((c2src.interest RW.Both).readable = (RW.Both.has_read && !c2src.peer_hup)) ∧
    ((c2src.interest RW.Both).writable = RW.Both.has_write) ∧
    (c2src.registered = false →
      c2src.reregister RW.Both = ({ c2src with registered := true },
        [ReactorOp.register c2src.token (c2src.interest RW.Both) PollOpt.edge])) ∧
    (c2src.registered = true →
      c2src.reregister RW.Both = (c2src,
        [ReactorOp.reregister c2src.token (c2src.interest RW.Both) PollOpt.edgeOneshot])) :=
  claim_C2 c2src RW.Both rfl

/-! Claim C5. -/

/-- C5 counterexample: a ready event carrying hangup and writable but not
readable is delivered as `Both`, although the event set is not "both
readable and writable" (and is not delivered as `Write` although it is
the only writable-carrying case the claim leaves for it). -/
theorem claim_C5_counterexample :
    readyEvent { readable := false, writable := true, hup := true } = some RW.Both ∧
    (EventSet.mk false true true).readable = false := by
  decide

/-- C5 (amended): the event mode delivered on `Ready(token, events)` is
`Both` iff (readable or hangup) and writable, `Read` iff (readable or
hangup) and not writable, `Write` iff writable and neither readable nor
hangup; a ready event with none of the readable, writable, hangup bits
panics. -/
theorem claim_C5_amended (e : EventSet) :
    (readyEvent e = some RW.Both ↔ ((e.readable || e.hup) && e.writable) = true) ∧
    (readyEvent e = some RW.Read ↔ ((e.readable || e.hup) && !e.writable) = true) ∧
    (readyEvent e = some RW.Write ↔ (!(e.readable || e.hup) && e.writable) = true) ∧
    (readyEvent e = none ↔ (!e.readable && !e.writable && !e.hup) = true) := by
  rcases e with ⟨r, w, h⟩
  cases r <;> cases w <;> cases h <;> decide

/-! Claim C7. -/

/-- C7: every reactor-facing path returns early on the `Notified`
variant — `reregister`, `unreregister` and `deregister` leave the source
untouched and issue no reactor call at all for a `Notified` source, so no
read, write, or hangup interest is ever registered, reregistered, or
deregistered for its token. -/
theorem claim_C7 (s : EventSourceShared) (rw : RW) (h : s.io = Source.Notified) :
    s.reregister rw = (s, []) ∧ s.unreregister = [] ∧ s.deregister = (s, []) := by
  rcases s with ⟨t, i, k, ph, reg⟩
  cases k
  · cases h
  · exact ⟨rfl, rfl, rfl⟩

/-- Witness for C7 at a concrete notified source. -/
def c7src : EventSourceShared :=
  { token := 3, index := 1, io := Source.Notified, peer_hup := false, registered := false }

theorem claim_C7_witness :
    c7src.reregister RW.Read = (c7src, []) ∧
    c7src.unreregister = [] ∧ c7src.deregister = (c7src, []) :=
  claim_C7 c7src RW.Read rfl

/-! Claim C9. -/

/-- C9: the blocking read loop attempts a non-blocking read each
iteration; after `k` not-ready attempts it has blocked `k` times in mode
`Read` (each block setting `blocked_on` to the singleton mask
`1 <<< index` and the state to `BlockedOn Read`, as `blockOn` shows), a
ready result returns the byte count (including 0 for EOF, since `n` is
arbitrary), and an I/O error is returned verbatim with no further
retries. -/
theorem claim_C9 (k n e : Nat) (rest : List TryRes) (co : Coroutine) (index : Nat) :
    readLoop (List.replicate k TryRes.notReady ++ TryRes.ready n :: rest) =
      (List.replicate k RW.Read, some (Except.ok n)) ∧
    readLoop (List.replicate k TryRes.notReady ++ TryRes.ioErr e :: rest) =
      (List.replicate k RW.Read, some (Except.error e)) ∧
    (blockOn co index RW.Read).state = State.BlockedOn RW.Read ∧
    (blockOn co index RW.Read).blocked_on_mask = 1 <<< index := by
  refine ⟨?_, ?_, rfl, rfl⟩ <;>
    induction k with
    | zero => rfl
    | succ k ih => simp [List.replicate_succ, readLoop, ih]

/-! Claim C10. -/

/-- C10: a fresh coroutine's `last_event` is `{index 0, mode Read}`; a
coroutine that blocks in `select` (over an arbitrary source list and in
any mode) and whose first resume is a `Notify` dispatch — which never
writes `last_event` — still carries this initializer value, which
`select_impl` then returns, even though index 0 names no source that ever
had an event. -/
theorem claim_C10 (srcs : List EventSourceShared) (index : Nat) (rw : RW) :
    Coroutine.new.last_event = { index := EventSourceIndex.mk 0, rw := RW.Read } ∧
    (notifyDispatch (some (Source.Notified, index))
        (selectBlockState { Coroutine.new with io := srcs } rw)).1.last_event =
      { index := EventSourceIndex.mk 0, rw := RW.Read } := by
  exact ⟨rfl, rfl⟩

/-! Claim C3. -/

/-- getD of a mapped list inside the bounds. -/
theorem getD_map_lt (f : EventSourceShared → EventSourceShared)
    (l : List EventSourceShared) (i : Nat) (hi : i < l.length) :
    (l.map f).getD i dummySrc = f (l.getD i dummySrc) := by
  simp [List.getD_eq_getElem?_getD, List.getElem?_eq_getElem hi,
    List.getElem?_map]

/-- C3: when the dispatcher runs the arming pass on a blocked coroutine,
the result swaps the masks (`currently_registered` becomes the old
`blocked_on`, `blocked_on` becomes 0), and for each position `i` the
emitted reactor calls are those of `reregister` (interest derived from the
blocking mode) when bit `i` of `blocked_on` is set, those of
`unreregister` when only bit `i` of `currently_registered` is set, and
nothing otherwise; `unreregister` of an Evented source is exactly one
rearm with the empty interest set. -/
theorem claim_C3 (co : Coroutine) (rw : RW) (h : co.state = State.BlockedOn rw) :
    ∃ co1 ops, co.reregister_blocked_on = some (co1, ops) ∧
      co1.registered_mask = co.blocked_on_mask ∧
      co1.blocked_on_mask = 0 ∧
      ops = ((List.range co.io.length).map (fun i =>
          if co.blocked_on_mask.testBit i then ((co.io.getD i dummySrc).reregister rw).2
          else if co.registered_mask.testBit i then (co.io.getD i dummySrc).unreregister
          else [])).flatten ∧
      (∀ s : EventSourceShared, s.io = Source.Evented →
        s.unreregister = [ReactorOp.reregister s.token
          { readable := false, writable := false, hup := false } PollOpt.edgeOneshot]) := by
  refine ⟨{ co with
      io := (armPass rw co.blocked_on_mask co.registered_mask 0 co.io).1,
      registered_mask := co.blocked_on_mask, blocked_on_mask := 0 },
    (armPass rw co.blocked_on_mask co.registered_mask 0 co.io).2, ?_, rfl, rfl, ?_, ?_⟩
  · simp [Coroutine.reregister_blocked_on, h]
  · rw [armPass_snd_eq]
    congr 1
    refine List.map_congr_left ?_
    intro i _
    simp only [Nat.zero_add, armOne]
    split_ifs <;> rfl
  · intro s hs
    rcases s with ⟨t, i, k, ph, reg⟩
    cases k
    · rfl
    · cases hs

/-- Witness for C3: a coroutine blocked on `Read` with one source blocked
on and one to be lazily disarmed. -/
def c3s0 : EventSourceShared :=
  { token := 0, index := 0, io := Source.Evented, peer_hup := false, registered := true }

def c3s1 : EventSourceShared :=
  { token := 1, index := 1, io := Source.Evented, peer_hup := false, registered := false }

def c3co : Coroutine :=
  { state := State.BlockedOn RW.Read,
    last_event := { index := EventSourceIndex.mk 0, rw := RW.Read },
    io := [c3s0, c3s1], blocked_on_mask := 2, registered_mask := 1 }

theorem claim_C3_witness :
    ∃ co1 ops, c3co.reregister_blocked_on = some (co1, ops) ∧
      co1.registered_mask = c3co.blocked_on_mask ∧
      co1.blocked_on_mask = 0 ∧
      ops = ((List.range c3co.io.length).map (fun i =>
          if c3co.blocked_on_mask.testBit i then ((c3co.io.getD i dummySrc).reregister RW.Read).2
          else if c3co.registered_mask.testBit i then (c3co.io.getD i dummySrc).unreregister
          else [])).flatten ∧
      (∀ s : EventSourceShared, s.io = Source.Evented →
        s.unreregister = [ReactorOp.reregister s.token
          { readable := false, writable := false, hup := false } PollOpt.edgeOneshot]) :=
  claim_C3 c3co RW.Read rfl

/-! Claim C4. -/

/-- Concrete input refuting C4: source 0 was registered
(`registered_mask = 0b01`) but the coroutine now blocks only on source 1
(`blocked_on_mask = 0b10`). -/
def c4s0 : EventSourceShared :=
  { token := 0, index := 0, io := Source.Evented, peer_hup := false, registered := true }

def c4s1 : EventSourceShared :=
  { token := 1, index := 1, io := Source.Evented, peer_hup := false, registered := false }

def c4co : Coroutine :=
  { state := State.BlockedOn RW.Read,
    last_event := { index := EventSourceIndex.mk 0, rw := RW.Read },
    io := [c4s0, c4s1], blocked_on_mask := 2, registered_mask := 1 }

def c4shared : ServerShared := { sources := {0, 1}, coroutines_no := 1 }

/-- C4 counterexample: after the maintenance pass, source 0 was only
lazily disarmed (rearmed with empty interest), which leaves its
`registered` flag true even though its owner is still blocked (not
Finished) and its bit is no longer in `currently_registered` — so the
claimed equivalence evaluates to `false` on this run. -/
theorem claim_C4_counterexample :
    ((Coroutine.reregister c4co c4shared).map
      (fun res => ((res.1.io.getD 0 dummySrc).registered ==
        (decide (¬ res.1.state = State.Finished) && res.1.registered_mask.testBit 0)))) =
      some false := by
  decide

/-- C4 (amended): after a post-resume maintenance pass, an Evented
source's `registered` flag is true iff its owning coroutine is not
Finished and either the flag was already true before the pass or the
source's bit is set in the new `currently_registered` mask (lazy
disarming never clears the flag; only finishing does). -/
theorem claim_C4_amended (co : Coroutine) (shared : ServerShared)
    (co1 : Coroutine) (shared1 : ServerShared) (ops : List ReactorOp) (sd : Bool)
    (h : co.reregister shared = some (co1, shared1, ops, sd))
    (i : Nat) (hi : i < co.io.length)
    (he : (co.io.getD i dummySrc).io = Source.Evented) :
    co1.io.length = co.io.length ∧
    ((co1.io.getD i dummySrc).registered = true ↔
      (¬ co.state = State.Finished ∧
        ((co.io.getD i dummySrc).registered = true ∨
          co1.registered_mask.testBit i = true))) := by
  by_cases hf : co.state = State.Finished
  · simp only [Coroutine.reregister, if_pos hf] at h
    cases hrec : deregisterAllAux co.io shared.sources with
    | none => rw [hrec] at h; cases h
    | some r =>
      obtain ⟨io1, slab1, ops1⟩ := r
      rw [hrec] at h
      simp only [Option.some.injEq, Prod.mk.injEq] at h
      obtain ⟨h1, -, -, -⟩ := h
      obtain ⟨e1, -, -⟩ := deregisterAllAux_spec co.io shared.sources io1 slab1 ops1 hrec
      subst h1
      constructor
      · simp [e1]
      · have h1 : ({ co with io := io1 } : Coroutine).io.getD i dummySrc =
            (co.io.getD i dummySrc).deregister.1 := by
          rw [show ({ co with io := io1 } : Coroutine).io = io1 from rfl, e1]
          exact getD_map_lt _ _ _ hi
        rw [h1, deregister_fst_registered _ he]
        simp [hf]
  · simp only [Coroutine.reregister, if_neg hf] at h
    cases hst : co.state with
    | Running => rw [Coroutine.reregister_blocked_on, hst] at h; cases h
    | Finished => exact absurd hst hf
    | BlockedOn rw =>
      rw [Coroutine.reregister_blocked_on, hst] at h
      simp only [Option.some.injEq, Prod.mk.injEq] at h
      obtain ⟨h1, -, -, -⟩ := h
      subst h1
      have hlen := armPass_fst_length rw co.blocked_on_mask co.registered_mask 0 co.io
      have hget := armPass_fst_getD rw co.blocked_on_mask co.registered_mask 0 i co.io hi
      constructor
      · simpa using hlen
      · rw [show ({ co with
            io := (armPass rw co.blocked_on_mask co.registered_mask 0 co.io).1,
            registered_mask := co.blocked_on_mask,
            blocked_on_mask := 0 } : Coroutine).io =
              (armPass rw co.blocked_on_mask co.registered_mask 0 co.io).1 from rfl,
          hget]
        simp only [Nat.zero_add, armOne]
        cases hb : co.blocked_on_mask.testBit i with
        | true =>
          rw [if_pos (by simp [hb]),
            reregister_fst_registered (co.io.getD i dummySrc) rw he]
          simp [hb, hf]
        | false =>
          rw [if_neg (by simp [hb])]
          by_cases hr : co.registered_mask.testBit i <;> simp [hb, hr, hf]

/-- Witness input for the amended C4: one unregistered Evented source,
blocked on with `Read`. -/
def c4ws : EventSourceShared :=
  { token := 2, index := 0, io := Source.Evented, peer_hup := false, registered := false }

def c4wco : Coroutine :=
  { state := State.BlockedOn RW.Read,
    last_event := { index := EventSourceIndex.mk 0, rw := RW.Read },
    io := [c4ws], blocked_on_mask := 1, registered_mask := 0 }

def c4wshared : ServerShared := { sources := {2}, coroutines_no := 1 }

def c4wco1 : Coroutine :=
  { c4wco with io := [{ c4ws with registered := true }], registered_mask := 1, blocked_on_mask := 0 }

theorem claim_C4_witness :
    c4wco1.io.length = c4wco.io.length ∧
    ((c4wco1.io.getD 0 dummySrc).registered = true ↔
      (¬ c4wco.state = State.Finished ∧
        ((c4wco.io.getD 0 dummySrc).registered = true ∨
          c4wco1.registered_mask.testBit 0 = true))) :=
  claim_C4_amended c4wco c4wshared c4wco1 c4wshared
    [ReactorOp.register 2 { readable := true, writable := false, hup := true } PollOpt.edge]
    false (by decide) 0 (by decide) (by decide)

/-! Claim C6. -/

/-- C6: dispatching a Notify to a live Notified source clears that
source's bit from the owner's `blocked_on` mask and sets the state to
`Running` while leaving `last_event` untouched, and resumes the owner;
a Notify whose token is absent from the slab, or which resolves to an
Evented source, changes nothing and resumes no coroutine.  (`lookup`
models the slab lookup of the message's token; delivery of the payload to
the user object's callback is external to the runtime state.) -/
theorem claim_C6 (co : Coroutine) (lookup : Option (Source × Nat)) :
    (∀ index : Nat, lookup = some (Source.Notified, index) →
      notifyDispatch lookup co =
        ({ co with blocked_on_mask := clearBit co.blocked_on_mask index,
                   state := State.Running }, true) ∧
      (notifyDispatch lookup co).1.last_event = co.last_event) ∧
    (lookup = none → notifyDispatch lookup co = (co, false)) ∧
    (∀ index : Nat, lookup = some (Source.Evented, index) →
      notifyDispatch lookup co = (co, false)) := by
  refine ⟨?_, ?_, ?_⟩
  · intro index h
    subst h
    exact ⟨rfl, rfl⟩
  · intro h
    subst h
    rfl
  · intro index h
    subst h
    rfl

/-- Witness input for C6: a coroutine blocked in `wait_notify` on its
only source. -/
def c6co : Coroutine :=
  { state := State.BlockedOn RW.Notify,
    last_event := { index := EventSourceIndex.mk 0, rw := RW.Read },
    io := [], blocked_on_mask := 1, registered_mask := 0 }

theorem claim_C6_witness :
    notifyDispatch (some (Source.Notified, 0)) c6co =
      ({ c6co with blocked_on_mask := clearBit c6co.blocked_on_mask 0,
                   state := State.Running }, true) ∧
    (notifyDispatch (some (Source.Notified, 0)) c6co).1.last_event = c6co.last_event :=
  (claim_C6 c6co (some (Source.Notified, 0))).1 0 rfl

/-! Claim C8. -/

/-- C8: when a coroutine's body returns, the runtime marks it Finished
and clears `blocked_on`; the following maintenance pass then succeeds,
calls `deregister` on every owned source in order (clearing every Evented
source's `registered` flag), removes every owned token from the slab,
decrements `coroutines_no` by exactly one, and signals the event-loop
shutdown iff the count reaches 0.  The hypotheses state the slab
invariants the runtime maintains: each owned source holds a distinct
token that is present in the slab, and the finishing coroutine itself is
counted in `coroutines_no`. -/
theorem claim_C8 (co : Coroutine) (shared : ServerShared)
    (hnd : (co.io.map (fun s => s.token)).Nodup)
    (hmem : ∀ s ∈ co.io, s.token ∈ shared.sources)
    (hpos : 0 < shared.coroutines_no) :
    (coroutineFinish co).state = State.Finished ∧
    (coroutineFinish co).blocked_on_mask = 0 ∧
    ∃ co1 shared1 ops sd,
      (coroutineFinish co).reregister shared = some (co1, shared1, ops, sd) ∧
      co1.io = co.io.map (fun s => s.deregister.1) ∧
      (∀ s ∈ co1.io, s.io = Source.Evented → s.registered = false) ∧
      ops = (co.io.map (fun s => s.deregister.2)).flatten ∧
      (∀ s ∈ co.io, s.token ∉ shared1.sources) ∧
      shared1.coroutines_no + 1 = shared.coroutines_no ∧
      (sd = true ↔ shared.coroutines_no = 1) := by
  refine ⟨rfl, rfl, ?_⟩
  obtain ⟨⟨io1, slab1, ops1⟩, htot⟩ :=
    deregisterAllAux_total co.io shared.sources hnd hmem
  obtain ⟨e1, e2, e3⟩ := deregisterAllAux_spec co.io shared.sources io1 slab1 ops1 htot
  refine ⟨{ coroutineFinish co with io := io1 },
    { sources := slab1, coroutines_no := shared.coroutines_no - 1 }, ops1,
    (shared.coroutines_no - 1) == 0, ?_, ?_, ?_, e2, ?_, ?_, ?_⟩
  · simp [Coroutine.reregister, coroutineFinish, htot]
  · simpa using e1
  · intro s hs hev
    have hs' : s ∈ io1 := hs
    rw [e1] at hs'
    obtain ⟨t, ht, rfl⟩ := List.mem_map.mp hs'
    exact deregister_fst_registered t (by rwa [deregister_fst_io] at hev)
  · intro s hs hcontra
    exact (e3 s.token hcontra).2 (List.mem_map_of_mem _ hs)
  · show shared.coroutines_no - 1 + 1 = shared.coroutines_no
    omega
  · show ((shared.coroutines_no - 1 == 0) = true) ↔ shared.coroutines_no = 1
    simp only [beq_iff_eq]
    omega

/-- Witness inputs for C8: one registered Evented source and one Notified
source, both tokens live in the slab; one coroutine left. -/
def c8s0 : EventSourceShared :=
  { token := 5, index := 0, io := Source.Evented, peer_hup := false, registered := true }

def c8s1 : EventSourceShared :=
  { token := 7, index := 1, io := Source.Notified, peer_hup := false, registered := false }

def c8co : Coroutine :=
  { state := State.Running,
    last_event := { index := EventSourceIndex.mk 0, rw := RW.Read },
    io := [c8s0, c8s1], blocked_on_mask := 1, registered_mask := 1 }

def c8shared : ServerShared := { sources := {5, 7}, coroutines_no := 1 }

theorem claim_C8_witness :
    (coroutineFinish c8co).state = State.Finished ∧
    (coroutineFinish c8co).blocked_on_mask = 0 ∧
    ∃ co1 shared1 ops sd,
      (coroutineFinish c8co).reregister c8shared = some (co1, shared1, ops, sd) ∧
      co1.io = c8co.io.map (fun s => s.deregister.1) ∧
      (∀ s ∈ co1.io, s.io = Source.Evented → s.registered = false) ∧
      ops = (c8co.io.map (fun s => s.deregister.2)).flatten ∧
      (∀ s ∈ c8co.io, s.token ∉ shared1.sources) ∧
      shared1.coroutines_no + 1 = c8shared.coroutines_no ∧
      (sd = true ↔ c8shared.coroutines_no = 1) :=
  claim_C8 c8co c8shared (by decide) (by decide) (by decide)
